import Mathlib

/-!
Verification of the TreasurMAP connection/session runtime against its source.

The embedding translates the Rust sources under src/ into Lean definitions:

* src/src/parser.rs            (the line codec of the synchronous revision)
* src/src/index/inmemory.rs    (the in-memory mailbox index)
* src/src/auth/inmemory.rs     (the in-memory authenticator loop)
* src/src/handlers/login.rs, logout.rs, select.rs, fetch.rs
  (the per-verb async worker loops; each loop handles one request at a
  time, so a worker is embedded as a pure function from one request to
  the ordered list of channel sends it performs for that request)

The record types Command, Response, ResponseStatus, Context, Event and
Request that the async handlers import from crate::server and
crate::connection are absent from src/ (the server.rs and connection.rs
present are older revisions of different components); those few passive
data carriers are modelled from the spec and marked as such in their
doc comments.  All control flow is translated from the source files.
-/

/-- Modelled from the spec: crate::server::ResponseStatus, absent from src/.
STATUS of a tagged line, one of OK, BAD, NO (spec section 3). -/
inductive ResponseStatus
  | OK
  | BAD
  | NO
deriving DecidableEq, Repr

/-- Modelled from the spec: crate::server::Response, absent from src/.
A response line: a tag (the client tag, or "*" for untagged data lines),
an optional completion status, and a free-text message (spec section 3:
tag "*" with no status is permitted for data lines). -/
structure Response where
  tag : String
  status : Option ResponseStatus
  message : String
deriving DecidableEq, Repr

/-- Modelled from the spec: Response::new as called by the handlers, which
always builds a tagged line carrying a status. -/
def Response.new (tag : String) (status : ResponseStatus) (message : String) : Response :=
  { tag := tag, status := status, message := message }

/-- Modelled from the spec: Response::from on a literal beginning with
"* ", as used at every call site in the handler sources.  It yields an
untagged data line with no completion status whose message is the text
after the leading star and space (spec section 3: serialized form of an
untagged data line is the star, a space, then the message). -/
def Response.ofLine (line : String) : Response :=
  { tag := "*", status := none, message := line.drop 2 }

/-- Modelled from the spec: the writer serialization of one response,
spec section 4.1: untagged data renders as the tag then the message,
tagged status lines render as tag, status, message, space-separated. -/
def ResponseStatus.render : ResponseStatus → String
  | .OK => "OK"
  | .BAD => "BAD"
  | .NO => "NO"

/-- Modelled from the spec: the serialized bytes of a response line,
without the trailing CRLF that the writer appends. -/
def Response.render (r : Response) : String :=
  match r.status with
  | some st => r.tag ++ " " ++ st.render ++ " " ++ r.message
  | none => r.tag ++ " " ++ r.message

/-- Modelled from the spec: crate::server::Command, absent from src/.
A parsed command: tag, verb and arguments (spec section 3). -/
structure Command where
  tag : String
  verb : String
  args : List String
deriving DecidableEq, Repr

/-- Modelled from the spec: Command::num_args. -/
def Command.numArgs (c : Command) : Nat := c.args.length

/-- Modelled from the spec: Command::arg(i), total with the empty string
as default so that the embedding never aborts (spec section 4.3: workers
never panic on handler-side logic errors). -/
def Command.arg (c : Command) (i : Nat) : String := c.args.getD i ""

/-- A user as carried by Authenticated events.  The password hash field
of src/src/auth/mod.rs is omitted: password verification (bcrypt) is a
parameter of the authenticator embedding below. -/
structure User where
  name : String
deriving DecidableEq, Repr

/-- Modelled from the spec: crate::connection::Context, absent from src/.
The per-session context snapshot: optional user, optional selected
folder (spec section 3; paths are modelled as strings). -/
structure Context where
  user : Option User
  folder : Option String
deriving DecidableEq, Repr

/-- Modelled from the spec: Context::is_authenticated, true iff a user is
present (spec section 3). -/
def Context.isAuthenticated (ctx : Context) : Bool := ctx.user.isSome

/-- Modelled from the spec: Context::is_selected, true iff a folder is
present (spec section 3). -/
def Context.isSelected (ctx : Context) : Bool := ctx.folder.isSome

/-- Modelled from the spec: crate::connection::Event, absent from src/.
Session events emitted by handlers, consumed by the state manager. -/
inductive Event
  | AUTH (user : User)
  | SELECT (folder : String)
  | UNAUTH
deriving DecidableEq, Repr

/-- Modelled from the spec: crate::connection::Request, absent from src/.
The command plus the session-context snapshot; the response and event
channel endpoints become the action trace of the embedding. -/
structure Request where
  command : Command
  context : Context
deriving DecidableEq, Repr

/-- One send performed by a handler worker while processing a request:
an event on the session-event channel, a batch of responses on the
response channel, or a lookup request on the mailbox/index channel.
A worker run on one request is embedded as the list of its sends in
program order. -/
inductive Send
  | event (e : Event)
  | respond (batch : List Response)
  | mailboxRequest (name : String)
deriving DecidableEq, Repr

def Send.isEvent : Send → Bool
  | .event _ => true
  | _ => false

def Send.isRespond : Send → Bool
  | .respond _ => true
  | _ => false

instance {ε α : Type} [DecidableEq ε] [DecidableEq α] : DecidableEq (Except ε α) := fun x y =>
  match x, y with
  | .ok a, .ok b =>
      if h : a = b then isTrue (congrArg Except.ok h)
      else isFalse (fun hc => h (Except.ok.inj hc))
  | .error a, .error b =>
      if h : a = b then isTrue (congrArg Except.error h)
      else isFalse (fun hc => h (Except.error.inj hc))
  | .ok _, .error _ => isFalse (fun hc => Except.noConfusion hc)
  | .error _, .ok _ => isFalse (fun hc => Except.noConfusion hc)

/-- Translated from src/src/handlers/fetch.rs, FetchHandler::validate
(lines 28 to 36): the verb comparison on line 29 is a no-op statement
(its branch body is the unit value, not a return), so validation fails
exactly when fewer than one argument is present. -/
def FetchHandler.validateFails (c : Command) : Prop := c.numArgs < 1

instance (c : Command) : Decidable (FetchHandler.validateFails c) :=
  inferInstanceAs (Decidable (c.numArgs < 1))

/-- The stub FETCH data line sent by src/src/handlers/fetch.rs line 70. -/
def fetchStubLine : Response :=
  Response.ofLine "* 1 FETCH (BODY[TEXT] {26}\r\nThis is a test email body.)"

/-- Translated from src/src/handlers/fetch.rs, FetchHandler::start
(lines 54 to 81), body of the per-request loop: on validation failure
send one BAD batch; otherwise send the stub FETCH batch.  The loop body
never reads request.context. -/
def FetchHandler.start (req : Request) : List Send :=
  if FetchHandler.validateFails req.command then
    [.respond [Response.new req.command.tag .BAD "insufficient arguments"]]
  else
    [.respond [fetchStubLine,
               Response.new req.command.tag .OK "FETCH completed."]]

/-- Authentication errors produced by src/src/auth: UserDoesNotExist
(src/src/auth/error.rs lines 32 to 35) and AuthenticationFailed
(src/src/auth/error.rs lines 36 to 38). -/
inductive AuthError
  | userDoesNotExist (username : String)
  | authenticationFailed
deriving DecidableEq, Repr

/-- Translated from src/src/auth/mod.rs, BasicAuth (lines 61 to 65):
a username plus a password. -/
structure BasicAuth where
  username : String
  password : String
deriving DecidableEq, Repr

/-- Rust str::replace of every double-quote character by the empty
string, as used on the LOGIN username (src/src/handlers/login.rs
line 66). -/
def removeDoubleQuotes (s : String) : String :=
  (s.toList.filter (fun c => c ≠ '"')).asString

/-- The basic-auth principal built by src/src/handlers/login.rs lines
64 to 70: the first argument with every double quote removed, and the
second argument verbatim. -/
def LoginHandler.principalOf (c : Command) : BasicAuth :=
  { username := removeDoubleQuotes (c.arg 0), password := c.arg 1 }

/-- Translated from src/src/handlers/login.rs, LoginHandler::validate
(lines 19 to 27): the verb comparison on line 20 is a no-op statement,
so validation fails exactly when fewer than two arguments are present. -/
def LoginHandler.validateFails (c : Command) : Prop := c.numArgs < 2

instance (c : Command) : Decidable (LoginHandler.validateFails c) :=
  inferInstanceAs (Decidable (c.numArgs < 2))

/-- Translated from src/src/handlers/login.rs, LoginHandler::start
(lines 51 to 98), body of the per-request loop.  The authenticator
round trip (authenticate then await the oneshot receiver) is the
function parameter auth.  On success the Authenticated event is sent
before the OK response (lines 73 to 83); on failure a single BAD batch
is sent and no event (lines 85 to 94). -/
def LoginHandler.start (auth : BasicAuth → Except AuthError User) (req : Request) :
    List Send :=
  if LoginHandler.validateFails req.command then
    [.respond [Response.new req.command.tag .BAD "insufficient arguments"]]
  else
    match auth (LoginHandler.principalOf req.command) with
    | .ok u =>
        [.event (.AUTH u),
         .respond [Response.new req.command.tag .OK
           ("LOGIN completed. Welcome " ++ u.name ++ ".")]]
    | .error _ =>
        [.respond [Response.new req.command.tag .BAD "LOGIN failed."]]

/-- Translated from src/src/handlers/logout.rs, LogoutHandler::validate
(lines 16 to 21): the verb comparison is a no-op statement and there is
no argument check, so validation always succeeds. -/
def LogoutHandler.validateFails (_c : Command) : Prop := False

instance (c : Command) : Decidable (LogoutHandler.validateFails c) :=
  inferInstanceAs (Decidable False)

/-- Translated from src/src/handlers/logout.rs, LogoutHandler::start
(lines 35 to 59), body of the per-request loop: send the Unauthenticated
event, then the tagged OK batch. -/
def LogoutHandler.start (req : Request) : List Send :=
  if LogoutHandler.validateFails req.command then
    [.respond [Response.new req.command.tag .BAD
      "cannot understand LOGOUT command provided"]]
  else
    [.event .UNAUTH,
     .respond [Response.new req.command.tag .OK "LOGOUT completed. Goodbye!"]]

/-- Permission enum of src/src/index/mod.rs lines 9 to 13. -/
inductive Permission
  | ReadOnly
  | ReadWrite
deriving DecidableEq, Repr

/-- MailFlag record of src/src/index/mod.rs lines 23 to 27. -/
structure MailFlag where
  value : String
  permanent : Bool
deriving DecidableEq, Repr

/-- Mailbox record of src/src/index/mod.rs lines 15 to 21; the PathBuf
name is modelled as a string and the u64 count as a natural number. -/
structure Mailbox where
  name : String
  count : Nat
  flags : List MailFlag
  permission : Permission
deriving DecidableEq, Repr

/-- Mailbox::new of src/src/index/mod.rs lines 36 to 45. -/
def Mailbox.new (name : String) (count : Nat) (flags : List MailFlag)
    (permission : Permission) : Mailbox :=
  { name := name, count := count, flags := flags, permission := permission }

/-- MailboxError of src/src/index/mod.rs lines 47 to 52.  The three
insufficient-permissions fields are mailbox name, username and
requested action. -/
inductive MailboxError
  | alreadyExists (name : String)
  | doesNotExist (name : String)
  | insufficientPermissions (name username requested : String)
deriving DecidableEq, Repr

/-- The mailboxes HashMap of src/src/index/inmemory.rs line 8, embedded
as an association list; lookups take the first binding of a key, and
the code below only ever inserts a key that is absent, so the list
semantics coincides with the map semantics. -/
abbrev MailboxMap := List (String × Mailbox)

/-- HashMap::get on the embedded map. -/
def mapGet (m : MailboxMap) (k : String) : Option Mailbox :=
  (m.find? (fun kv => kv.1 == k)).map Prod.snd

/-- HashMap::insert of an absent key on the embedded map. -/
def mapInsert (m : MailboxMap) (k : String) (v : Mailbox) : MailboxMap :=
  (k, v) :: m

/-- Rust u8::to_ascii_lowercase lifted to characters: ASCII uppercase
letters are shifted to lowercase, all other characters are unchanged. -/
def charAsciiLower (c : Char) : Char :=
  if 'A' ≤ c ∧ c ≤ 'Z' then Char.ofNat (c.toNat + 32) else c

/-- Rust str::eq_ignore_ascii_case.  On valid UTF-8 the byte-wise
comparison of the source agrees with this character-wise comparison,
because ASCII bytes never occur inside a multi-byte sequence. -/
def eqIgnoreAsciiCase (a b : String) : Bool :=
  a.toList.map charAsciiLower == b.toList.map charAsciiLower

/-- Translated from src/src/index/inmemory.rs, InMemoryIndex::add_mailbox
(lines 32 to 53): fail with Exists when the name is already bound,
otherwise insert a fresh mailbox that keeps only the name of the
argument and has count 0, no flags and ReadOnly permission. -/
def InMemoryIndex.addMailbox (idx : MailboxMap) (mb : Mailbox) :
    Except MailboxError MailboxMap :=
  if (mapGet idx mb.name).isSome then
    .error (.alreadyExists mb.name)
  else
    .ok (mapInsert idx mb.name (Mailbox.new mb.name 0 [] .ReadOnly))

/-- Translated from src/src/index/inmemory.rs, InMemoryIndex::get_mailbox
(lines 54 to 74).  The state threading makes the mutation explicit: the
result carries the returned mailbox and the possibly extended map.  For
a stored name the stored mailbox is returned with its permission field
replaced by the requested permission.  For an absent name that equals
INBOX up to ASCII case, add_mailbox is called (its error propagates via
the question-mark operator) and the freshly stored INBOX is returned;
the expect branch of the source (lookup right after the insert) is
unreachable and embedded as a DoesNotExist error.  Any other absent
name fails with DoesNotExist. -/
def InMemoryIndex.getMailbox (idx : MailboxMap) (name : String)
    (permission : Permission) : Except MailboxError (Mailbox × MailboxMap) :=
  match mapGet idx name with
  | some mb => .ok ({ mb with permission := permission }, idx)
  | none =>
      if eqIgnoreAsciiCase "INBOX" name then
        match InMemoryIndex.addMailbox idx (Mailbox.new "INBOX" 0 [] .ReadOnly) with
        | .error e => .error e
        | .ok idx2 =>
            match mapGet idx2 "INBOX" with
            | some mb => .ok (mb, idx2)
            | none => .error (.doesNotExist name)
      else
        .error (.doesNotExist name)

/-- Translated from src/src/auth/inmemory.rs, the per-request body of
InMemoryAuthenticator::start (lines 82 to 95) composed with
InMemoryUserStore::get (lines 24 to 26): look the principal name up in
the user store; if absent answer UserDoesNotExist; if present run the
password verification of BasicAuth::authenticate
(src/src/auth/mod.rs lines 71 to 84), answering the user on success and
AuthenticationFailed on failure.  The bcrypt comparison itself is the
function parameter verify. -/
def resolvePrincipal (store : List (String × User))
    (verify : BasicAuth → User → Bool) (p : BasicAuth) : Except AuthError User :=
  match (store.find? (fun kv => kv.1 == p.username)).map Prod.snd with
  | some u => if verify p u then .ok u else .error .authenticationFailed
  | none => .error (.userDoesNotExist p.username)

/-- Translated from src/src/handlers/select.rs, SelectHandler::validate
(lines 46 to 54): a mismatched verb returns Ok early (line 48), so
validation fails exactly when the verb is SELECT and fewer than one
argument is present. -/
def SelectHandler.validateFails (c : Command) : Prop :=
  c.verb = "SELECT" ∧ c.numArgs < 1

instance (c : Command) : Decidable (SelectHandler.validateFails c) :=
  inferInstanceAs (Decidable (c.verb = "SELECT" ∧ c.numArgs < 1))

/-- The ordered response batch sent on a successful SELECT,
src/src/handlers/select.rs lines 124 to 140: the EXISTS count comes
from the returned mailbox, the LIST line names the requested folder,
and the tagged OK terminates the batch. -/
def selectSuccessBatch (tag folder : String) (mb : Mailbox) : List Response :=
  [Response.ofLine ("* " ++ toString mb.count ++ " EXISTS"),
   Response.ofLine "* OK [UIDVALIDITY 3857529045] UIDs valid",
   Response.ofLine "* OK [UIDNEXT 4392] Predicted next UID",
   Response.ofLine "* FLAGS (\\Answered \\Flagged \\Deleted \\Seen \\Draft)",
   Response.ofLine "* OK [PERMANENTFLAGS (\\Deleted \\Seen \\*)] Limited",
   Response.ofLine ("* LIST () \"/\" " ++ folder),
   Response.new tag .OK "[READ-WRITE] SELECT completed."]

/-- Translated from src/src/handlers/select.rs, SelectHandler::start
(lines 76 to 159), body of the per-request loop.  The mailbox channel
round trip (send the Get request, await the oneshot reply, collapse
every error to None) is the function parameter reply; the send itself
is recorded as a mailboxRequest action.  Note that the unauthenticated
NO response on line 90 is built with the hard-coded tag "a1" in the
source, not with the tag of the request. -/
def SelectHandler.start (reply : String → Option Mailbox) (req : Request) :
    List Send :=
  if SelectHandler.validateFails req.command then
    [.respond [Response.new req.command.tag .BAD "insufficient arguments"]]
  else if req.context.isAuthenticated then
    let folder := req.command.arg 0
    match reply folder with
    | some mb =>
        [.mailboxRequest folder,
         .event (.SELECT folder),
         .respond (selectSuccessBatch req.command.tag folder mb)]
    | none =>
        [.mailboxRequest folder,
         .respond [Response.new req.command.tag .NO "No such mailbox"]]
  else
    [.respond [Response.new "a1" .NO
      "cannot SELECT when un-authenticated. Please authenticate using LOGIN or AUTHENTICATE."]]

/-- Rust errors of src/src/parser.rs reaching the caller of Parser::parse,
reduced to their kind; the embedding works on decoded text, so only the
two missing-token errors of get_tag and get_command can arise. -/
inductive LineParseError
  | tagMissing
  | commandMissing
deriving DecidableEq, Repr

/-- A parsed command of src/src/parser.rs lines 7 to 12, with the byte
vectors of tag and args decoded to strings. -/
structure ParsedCommand where
  tag : String
  command : String
  args : List String
deriving DecidableEq, Repr

/-- Rust slice::split on the space byte: chunks between the separators,
empty chunks included, exactly as the split iterator of
src/src/parser.rs line 75 yields them. -/
def splitOnSpace : List Char → List (List Char)
  | [] => [[]]
  | c :: cs =>
      if c = ' ' then [] :: splitOnSpace cs
      else
        match splitOnSpace cs with
        | [] => [[c]]
        | t :: ts => (c :: t) :: ts

/-- The tokenization of Parser::parse, src/src/parser.rs line 75: split
the input on the space byte and discard empty tokens.  The byte input
is modelled as decoded text; on valid UTF-8 the byte-wise split on 0x20
agrees with this character-wise split, because 0x20 never occurs inside
a multi-byte sequence. -/
def tokenize (input : String) : List String :=
  ((splitOnSpace input.toList).map List.asString).filter (fun t => t ≠ "")

/-- Rust String::to_lowercase as applied to the command token,
src/src/parser.rs line 141, restricted to ASCII (for ASCII letters the
Unicode lowering of the source coincides with Char.toLower). -/
def rustToLowercase (s : String) : String :=
  (s.toList.map Char.toLower).asString

/-- The trailing-newline trim of Parser::get_command, src/src/parser.rs
lines 126 to 129: remove the last character when the token ends with a
line feed. -/
def stripTrailingNewline (s : String) : String :=
  if s.toList.getLast? = some '\n' then s.toList.dropLast.asString else s

/-- Translated from src/src/parser.rs, Parser::parse (lines 74 to 93)
with get_tag (lines 95 to 120), get_command (lines 122 to 150) and
get_args (lines 152 to 178): the first token is the tag, the second is
the command lowercased after trimming one trailing line feed, and the
remaining tokens are the args kept verbatim except that tokens equal to
a bare line feed or a bare CRLF are dropped.  With no token get_tag
fails, with one token get_command fails. -/
def Parser.parse (input : String) : Except LineParseError ParsedCommand :=
  match tokenize input with
  | [] => .error .tagMissing
  | [_] => .error .commandMissing
  | t :: v :: rest =>
      .ok { tag := t,
            command := rustToLowercase (stripTrailingNewline v),
            args := rest.filter (fun a => !(a == "\n") && !(a == "\r\n")) }

/-- The number of lines of a batch that carry a completion status. -/
def batchStatusCount (b : List Response) : Nat :=
  (b.filter (fun r => r.status.isSome)).length

/-- Every session event in the trace is sent strictly before every
response batch in the trace (in particular before the terminal tagged
response of the command). -/
def eventsPrecedeResponses (tr : List Send) : Prop :=
  ∀ i j : Nat, ∀ e : Event, ∀ b : List Response,
    tr[i]? = some (.event e) → tr[j]? = some (.respond b) → i < j

lemma epr_respond_only (b : List Response) :
    eventsPrecedeResponses [.respond b] := by
  intro i j e2 b2 h1 h2
  rcases i with _ | i <;> simp_all

lemma epr_event_respond (e : Event) (b : List Response) :
    eventsPrecedeResponses [.event e, .respond b] := by
  intro i j e2 b2 h1 h2
  rcases i with _ | i
  · rcases j with _ | j
    · simp_all
    · omega
  · rcases i with _ | i <;> simp_all

lemma epr_mreq_respond (n : String) (b : List Response) :
    eventsPrecedeResponses [.mailboxRequest n, .respond b] := by
  intro i j e2 b2 h1 h2
  rcases i with _ | _ | i <;> simp_all

lemma epr_mreq_event_respond (n : String) (e : Event) (b : List Response) :
    eventsPrecedeResponses [.mailboxRequest n, .event e, .respond b] := by
  intro i j e2 b2 h1 h2
  rcases i with _ | _ | i
  · simp_all
  · rcases j with _ | _ | j
    · simp_all
    · simp_all
    · omega
  · rcases i with _ | i <;> simp_all

/-- C1: the claim states that the FETCH start loop answers an
unauthenticated snapshot with a single tagged NO and sends no stub
body.  The source loop (src/src/handlers/fetch.rs lines 54 to 81) never
reads the context: on the concrete failing input (a FETCH request with
one argument whose snapshot has neither user nor folder) it sends the
stub batch terminated by a tagged OK, and no line of that batch is a
NO.  This contradicts the tests of the same file (lines 113 to 132),
which expect the two NO answers, so the code is the defect. -/
theorem C1_fetch_start_ignores_context :
    FetchHandler.start { command := { tag := "a1", verb := "FETCH", args := ["1"] },
                         context := { user := none, folder := none } } =
      [.respond [fetchStubLine,
                 Response.new "a1" .OK "FETCH completed."]] ∧
    (∀ r ∈ [fetchStubLine, Response.new "a1" .OK "FETCH completed."],
       r.status ≠ some ResponseStatus.NO) := by
  exact ⟨rfl, by decide⟩

/-- C2: the claim states that the unauthenticated SELECT NO line is
tagged with the tag of the command itself.  On the concrete failing
input (an unauthenticated SELECT whose tag is b2) the source
(src/src/handlers/select.rs line 90) sends exactly one NO batch with
the required message and makes no mailbox request, but the line carries
the hard-coded tag a1, not the tag b2 of the command. -/
theorem C2_select_unauth_no_hardcoded_tag :
    SelectHandler.start (fun _ => none)
      { command := { tag := "b2", verb := "SELECT", args := ["INBOX"] },
        context := { user := none, folder := none } } =
      [.respond [Response.new "a1" .NO
        "cannot SELECT when un-authenticated. Please authenticate using LOGIN or AUTHENTICATE."]] ∧
    ("a1" : String) ≠ "b2" := by
  exact ⟨rfl, by decide⟩

/-- C3: counterexample to the claim as stated.  On the concrete line
with tokens a1, LOGIN and a double-quoted argument, the parser of
src/src/parser.rs returns the verb converted to lowercase (line 141),
not uppercase, and keeps the surrounding double quotes of the argument,
stripping nothing. -/
theorem C3_counterexample_lowercase_and_quotes_kept :
    Parser.parse "a1 LOGIN \"me\" pass" =
      .ok { tag := "a1", command := "login", args := ["\"me\"", "pass"] } ∧
    ("login" : String) ≠ "LOGIN" ∧ ("\"me\"" : String) ≠ "me" := by
  exact ⟨by decide, by decide, by decide⟩

/-- C3 amended: for every input line with at least two non-empty
space-separated tokens, Parser::parse returns a command whose tag is
the first token, whose verb is the second token converted to lowercase
after removing one trailing line feed, and whose args are the remaining
tokens kept verbatim (no quote stripping), except that tokens equal to
a bare line feed or a bare CRLF are dropped. -/
theorem C3_parse_tag_verb_args (s t v : String) (rest : List String)
    (h : tokenize s = t :: v :: rest) :
    Parser.parse s =
      .ok { tag := t,
            command := rustToLowercase (stripTrailingNewline v),
            args := rest.filter (fun a => !(a == "\n") && !(a == "\r\n")) } := by
  unfold Parser.parse
  rw [h]

theorem C3_parse_tag_verb_args_witness :
    Parser.parse "a1 LOGIN data \r\n" =
      .ok { tag := "a1", command := "login", args := ["data"] } :=
  C3_parse_tag_verb_args "a1 LOGIN data \r\n" "a1" "LOGIN" ["data", "\r\n"] (by decide)

/-- C9: each state-mutating handler sends its session event strictly
before the response batch that carries the terminal tagged line of the
same command: LOGIN sends Authenticated before its OK
(src/src/handlers/login.rs lines 73 to 83), LOGOUT sends
Unauthenticated before its OK (src/src/handlers/logout.rs lines 48 to
56), and SELECT sends Selected before its OK batch
(src/src/handlers/select.rs lines 117 to 141); this holds on every
request, for every authenticator and mailbox outcome. -/
theorem C9_events_before_terminal_response
    (auth : BasicAuth → Except AuthError User)
    (reply : String → Option Mailbox) (req : Request) :
    eventsPrecedeResponses (LoginHandler.start auth req) ∧
    eventsPrecedeResponses (LogoutHandler.start req) ∧
    eventsPrecedeResponses (SelectHandler.start reply req) := by
  refine ⟨?_, ?_, ?_⟩
  · unfold LoginHandler.start
    split
    · exact epr_respond_only _
    · split
      · exact epr_event_respond _ _
      · exact epr_respond_only _
  · unfold LogoutHandler.start
    split
    · exact epr_respond_only _
    · exact epr_event_respond _ _
  · unfold SelectHandler.start
    split
    · exact epr_respond_only _
    · split
      · dsimp only
        split
        · exact epr_mreq_event_respond _ _ _
        · exact epr_mreq_respond _ _
      · exact epr_respond_only _

/-- C4: a LOGIN request with at least two arguments is answered from
the authenticator outcome on the principal built from the two
arguments (the username with its double quotes removed, the password
verbatim, src/src/handlers/login.rs lines 64 to 70): on success the
worker emits the Authenticated event carrying the resolved user and
then the single tagged OK line with the welcome message; on failure it
sends the single tagged BAD line and emits no event. -/
theorem C4_login_success_and_failure
    (auth : BasicAuth → Except AuthError User) (req : Request)
    (h : 2 ≤ req.command.numArgs) :
    (∀ u : User, auth (LoginHandler.principalOf req.command) = .ok u →
       LoginHandler.start auth req =
         [.event (.AUTH u),
          .respond [Response.new req.command.tag .OK
            ("LOGIN completed. Welcome " ++ u.name ++ ".")]]) ∧
    (∀ er : AuthError, auth (LoginHandler.principalOf req.command) = .error er →
       LoginHandler.start auth req =
         [.respond [Response.new req.command.tag .BAD "LOGIN failed."]]) := by
  have hv : ¬ LoginHandler.validateFails req.command := by
    unfold LoginHandler.validateFails
    omega
  constructor
  · intro u hu
    unfold LoginHandler.start
    rw [if_neg hv, hu]
  · intro er her
    unfold LoginHandler.start
    rw [if_neg hv, her]

def demoAuth : BasicAuth → Except AuthError User := fun p =>
  if p.username = "me" ∧ p.password = "pw" then .ok { name := "me" }
  else .error .authenticationFailed

def demoLoginReq : Request :=
  { command := { tag := "a1", verb := "LOGIN", args := ["me", "pw"] },
    context := { user := none, folder := none } }

theorem C4_login_success_and_failure_witness :
    LoginHandler.start demoAuth demoLoginReq =
      [.event (.AUTH { name := "me" }),
       .respond [Response.new "a1" .OK "LOGIN completed. Welcome me."]] :=
  (C4_login_success_and_failure demoAuth demoLoginReq (by decide)).1
    { name := "me" } (by decide)

/-- C5: an authenticated SELECT whose mailbox round trip returns a
mailbox first sends its Get request on the mailbox channel, then the
Selected event, then one batch consisting of the EXISTS line built from
the count of the returned mailbox, the UIDVALIDITY line, the UIDNEXT
line, the FLAGS line, the PERMANENTFLAGS line, the LIST line naming the
requested folder, and the tagged OK completion, in this order
(src/src/handlers/select.rs lines 116 to 142); exactly one line of the
batch carries a completion status and it is the last line. -/
theorem C5_select_success_batch
    (reply : String → Option Mailbox) (req : Request) (mb : Mailbox)
    (hverb : req.command.verb = "SELECT")
    (hargs : 1 ≤ req.command.numArgs)
    (hauth : req.context.isAuthenticated = true)
    (hmb : reply (req.command.arg 0) = some mb) :
    SelectHandler.start reply req =
      [.mailboxRequest (req.command.arg 0),
       .event (.SELECT (req.command.arg 0)),
       .respond (selectSuccessBatch req.command.tag (req.command.arg 0) mb)] ∧
    batchStatusCount (selectSuccessBatch req.command.tag (req.command.arg 0) mb) = 1 ∧
    (selectSuccessBatch req.command.tag (req.command.arg 0) mb).getLast? =
      some (Response.new req.command.tag .OK "[READ-WRITE] SELECT completed.") := by
  have hv : ¬ SelectHandler.validateFails req.command := by
    unfold SelectHandler.validateFails
    intro hc
    omega
  refine ⟨?_, ?_, ?_⟩
  · unfold SelectHandler.start
    rw [if_neg hv, if_pos hauth]
    dsimp only
    rw [hmb]
  · simp [batchStatusCount, selectSuccessBatch, Response.ofLine, Response.new]
  · rfl

def demoReply : String → Option Mailbox := fun n =>
  if n = "INBOX" then some (Mailbox.new "INBOX" 172 [] .ReadWrite) else none

def demoSelectReq : Request :=
  { command := { tag := "a2", verb := "SELECT", args := ["INBOX"] },
    context := { user := some { name := "me" }, folder := none } }

theorem C5_select_success_batch_witness :
    SelectHandler.start demoReply demoSelectReq =
      [.mailboxRequest "INBOX",
       .event (.SELECT "INBOX"),
       .respond (selectSuccessBatch "a2" "INBOX" (Mailbox.new "INBOX" 172 [] .ReadWrite))] ∧
    batchStatusCount (selectSuccessBatch "a2" "INBOX" (Mailbox.new "INBOX" 172 [] .ReadWrite)) = 1 ∧
    (selectSuccessBatch "a2" "INBOX" (Mailbox.new "INBOX" 172 [] .ReadWrite)).getLast? =
      some (Response.new "a2" .OK "[READ-WRITE] SELECT completed.") :=
  C5_select_success_batch demoReply demoSelectReq (Mailbox.new "INBOX" 172 [] .ReadWrite)
    (by decide) (by decide) (by decide) (by decide)

def reqMismatch : Request :=
  { command := { tag := "t1", verb := "NOOP", args := [] },
    context := { user := none, folder := none } }

/-- C6: counterexample to the claim as stated.  On the concrete request
with verb NOOP handed to the SELECT worker, the worker does send a
response, but it is not a BAD line with the message verb mismatch: the
mismatched verb makes SelectHandler::validate return Ok early
(src/src/handlers/select.rs line 48), the argument-count check is
skipped, and processing continues as if the verb matched, here reaching
the unauthenticated NO answer.  No handler in the source ever builds a
verb-mismatch message. -/
theorem C6_counterexample_no_verb_mismatch :
    SelectHandler.start (fun _ => none) reqMismatch =
      [.respond [Response.new "a1" .NO
        "cannot SELECT when un-authenticated. Please authenticate using LOGIN or AUTHENTICATE."]] ∧
    (Response.new "a1" .NO
        "cannot SELECT when un-authenticated. Please authenticate using LOGIN or AUTHENTICATE.").status ≠
      some ResponseStatus.BAD := by
  exact ⟨rfl, by decide⟩

lemma selectSuccessBatch_no_bad (tag folder : String) (mb : Mailbox) :
    ∀ r ∈ selectSuccessBatch tag folder mb, r.status ≠ some ResponseStatus.BAD := by
  intro r hr
  simp only [selectSuccessBatch, List.mem_cons, List.not_mem_nil, or_false] at hr
  rcases hr with h | h | h | h | h | h | h <;> subst h <;> simp [Response.ofLine, Response.new]

lemma single_response_no_verb_mismatch (tag msg : String) (st : ResponseStatus)
    (h : st ≠ ResponseStatus.BAD ∨ msg ≠ "verb mismatch") :
    ∀ r ∈ [Response.new tag st msg],
      ¬(r.status = some ResponseStatus.BAD ∧ r.message = "verb mismatch") := by
  intro r hr hc
  simp only [List.mem_cons, List.not_mem_nil, or_false] at hr
  subst hr
  rcases h with h | h
  · exact h (Option.some.inj hc.1)
  · exact h hc.2

/-- C6 amended: a worker that receives a request whose verb differs
from its own verb still sends a response for that request, but it is
the normal response of the worker, never a BAD line with message verb
mismatch: LOGIN validation ignores the verb entirely and SELECT
validation returns Ok early, additionally skipping the argument-count
check.  No verb-mismatch message exists anywhere in the source. -/
theorem C6_mismatched_verb_still_answered
    (auth : BasicAuth → Except AuthError User)
    (reply : String → Option Mailbox) (req : Request)
    (hs : req.command.verb ≠ "SELECT") :
    ((SelectHandler.start reply req).filter Send.isRespond ≠ [] ∧
     ∀ b r, Send.respond b ∈ SelectHandler.start reply req → r ∈ b →
       ¬(r.status = some ResponseStatus.BAD ∧ r.message = "verb mismatch")) ∧
    ((LoginHandler.start auth req).filter Send.isRespond ≠ [] ∧
     ∀ b r, Send.respond b ∈ LoginHandler.start auth req → r ∈ b →
       ¬(r.status = some ResponseStatus.BAD ∧ r.message = "verb mismatch")) := by
  have hv : ¬ SelectHandler.validateFails req.command := by
    unfold SelectHandler.validateFails
    intro hc
    exact hs hc.1
  constructor
  · unfold SelectHandler.start
    rw [if_neg hv]
    split
    · dsimp only
      split
      · refine ⟨by simp [Send.isRespond], ?_⟩
        intro b r hb hr
        simp only [List.mem_cons, List.not_mem_nil, or_false] at hb
        rcases hb with hb | hb | hb
        · exact Send.noConfusion hb
        · exact Send.noConfusion hb
        · have hb2 := Send.respond.inj hb
          subst hb2
          intro hc
          exact selectSuccessBatch_no_bad _ _ _ r hr hc.1
      · refine ⟨by simp [Send.isRespond], ?_⟩
        intro b r hb hr
        simp only [List.mem_cons, List.not_mem_nil, or_false] at hb
        rcases hb with hb | hb
        · exact Send.noConfusion hb
        · have hb2 := Send.respond.inj hb
          subst hb2
          exact single_response_no_verb_mismatch _ _ _ (Or.inl (by decide)) r hr
    · refine ⟨by simp [Send.isRespond], ?_⟩
      intro b r hb hr
      simp only [List.mem_cons, List.not_mem_nil, or_false] at hb
      have hb2 := Send.respond.inj hb
      subst hb2
      exact single_response_no_verb_mismatch _ _ _ (Or.inl (by decide)) r hr
  · unfold LoginHandler.start
    split
    · refine ⟨by simp [Send.isRespond], ?_⟩
      intro b r hb hr
      simp only [List.mem_cons, List.not_mem_nil, or_false] at hb
      have hb2 := Send.respond.inj hb
      subst hb2
      exact single_response_no_verb_mismatch _ _ _ (Or.inr (by decide)) r hr
    · split
      · refine ⟨by simp [Send.isRespond], ?_⟩
        intro b r hb hr
        simp only [List.mem_cons, List.not_mem_nil, or_false] at hb
        rcases hb with hb | hb
        · exact Send.noConfusion hb
        · have hb2 := Send.respond.inj hb
          subst hb2
          exact single_response_no_verb_mismatch _ _ _ (Or.inl (by decide)) r hr
      · refine ⟨by simp [Send.isRespond], ?_⟩
        intro b r hb hr
        simp only [List.mem_cons, List.not_mem_nil, or_false] at hb
        have hb2 := Send.respond.inj hb
        subst hb2
        exact single_response_no_verb_mismatch _ _ _ (Or.inr (by decide)) r hr

theorem C6_mismatched_verb_still_answered_witness :
    ("NOOP" : String) ≠ "SELECT" ∧
    (((SelectHandler.start (fun _ => none) reqMismatch).filter Send.isRespond ≠ [] ∧
      ∀ b r, Send.respond b ∈ SelectHandler.start (fun _ => none) reqMismatch → r ∈ b →
        ¬(r.status = some ResponseStatus.BAD ∧ r.message = "verb mismatch")) ∧
     ((LoginHandler.start demoAuth reqMismatch).filter Send.isRespond ≠ [] ∧
      ∀ b r, Send.respond b ∈ LoginHandler.start demoAuth reqMismatch → r ∈ b →
        ¬(r.status = some ResponseStatus.BAD ∧ r.message = "verb mismatch"))) :=
  ⟨by decide,
   C6_mismatched_verb_still_answered demoAuth (fun _ => none) reqMismatch (by decide)⟩

lemma mapGet_insert_self (idx : MailboxMap) (k : String) (v : Mailbox) :
    mapGet (mapInsert idx k v) k = some v := by
  unfold mapGet mapInsert
  rw [List.find?_cons_of_pos _ (by simp)]
  rfl

lemma mapGet_eq_none_of_no_inbox_variant (idx : MailboxMap) (name : String)
    (habsent : ∀ kv ∈ idx, eqIgnoreAsciiCase "INBOX" kv.1 = false)
    (hname : eqIgnoreAsciiCase "INBOX" name = true) :
    mapGet idx name = none := by
  unfold mapGet
  cases hf : idx.find? (fun kv => kv.1 == name) with
  | none => rfl
  | some kv =>
      exfalso
      have hmem : kv ∈ idx := List.mem_of_find?_eq_some hf
      have hpred := List.find?_some hf
      have hkv : kv.1 = name := by simpa using hpred
      have hfalse := habsent kv hmem
      rw [hkv, hname] at hfalse
      exact Bool.noConfusion hfalse

/-- C7: when no mailbox is stored under any ASCII-case variant of
INBOX, looking any such variant up auto-creates the canonical INBOX:
get_mailbox stores a mailbox named INBOX with count 0, no flags and
ReadOnly permission and returns it Ok, whatever permission was
requested (src/src/index/inmemory.rs lines 54 to 74 together with
add_mailbox, lines 32 to 53). -/
theorem C7_inbox_autocreated (idx : MailboxMap) (name : String) (p : Permission)
    (hname : eqIgnoreAsciiCase "INBOX" name = true)
    (habsent : ∀ kv ∈ idx, eqIgnoreAsciiCase "INBOX" kv.1 = false) :
    InMemoryIndex.getMailbox idx name p =
      .ok (Mailbox.new "INBOX" 0 [] .ReadOnly,
           mapInsert idx "INBOX" (Mailbox.new "INBOX" 0 [] .ReadOnly)) := by
  have hnone : mapGet idx name = none :=
    mapGet_eq_none_of_no_inbox_variant idx name habsent hname
  have hnone2 : mapGet idx "INBOX" = none :=
    mapGet_eq_none_of_no_inbox_variant idx "INBOX" habsent (by decide)
  unfold InMemoryIndex.getMailbox
  rw [hnone]
  simp only [hname, if_true]
  unfold InMemoryIndex.addMailbox
  dsimp only [Mailbox.new]
  rw [hnone2]
  simp only [Option.isSome_none, Bool.false_eq_true, if_false]
  rw [mapGet_insert_self]

def demoStoredMailbox : Mailbox := Mailbox.new "Work" 3 [] .ReadOnly

theorem C7_inbox_autocreated_witness :
    InMemoryIndex.getMailbox [("Work", demoStoredMailbox)] "inBox" .ReadWrite =
      .ok (Mailbox.new "INBOX" 0 [] .ReadOnly,
           mapInsert [("Work", demoStoredMailbox)] "INBOX"
             (Mailbox.new "INBOX" 0 [] .ReadOnly)) :=
  C7_inbox_autocreated [("Work", demoStoredMailbox)] "inBox" .ReadWrite
    (by decide) (by decide)

/-- C10: for a stored mailbox name, get_mailbox answers Ok with the
stored mailbox whose permission field is replaced by the requested
permission, leaving the index unchanged (src/src/index/inmemory.rs
lines 60 to 64); and get_mailbox never returns the
InsufficientPermissions error variant on any input (its only error
outcomes are Exists, propagated from add_mailbox, and DoesNotExist). -/
theorem C10_permission_override_never_insufficient :
    (∀ (idx : MailboxMap) (name : String) (p : Permission) (mb : Mailbox),
       mapGet idx name = some mb →
       InMemoryIndex.getMailbox idx name p = .ok ({ mb with permission := p }, idx)) ∧
    (∀ (idx : MailboxMap) (name : String) (p : Permission) (m u a : String),
       InMemoryIndex.getMailbox idx name p ≠
         .error (.insufficientPermissions m u a)) := by
  constructor
  · intro idx name p mb h
    unfold InMemoryIndex.getMailbox
    rw [h]
  · intro idx name p m u a
    unfold InMemoryIndex.getMailbox InMemoryIndex.addMailbox
    dsimp only [Mailbox.new]
    split
    · simp
    · split
      · by_cases h2 : (mapGet idx "INBOX").isSome = true
        · rw [if_pos h2]
          simp
        · rw [if_neg h2]
          dsimp only
          rw [mapGet_insert_self]
          simp
      · simp

theorem C10_permission_override_never_insufficient_witness :
    InMemoryIndex.getMailbox [("Work", demoStoredMailbox)] "Work" .ReadWrite =
      .ok ({ demoStoredMailbox with permission := .ReadWrite },
           [("Work", demoStoredMailbox)]) :=
  (C10_permission_override_never_insufficient).1
    [("Work", demoStoredMailbox)] "Work" .ReadWrite demoStoredMailbox (by decide)

/-- The serialized contents of every response batch of a trace, in
order: what the writer would put on the wire for these sends. -/
def renderedBatches (tr : List Send) : List (List String) :=
  tr.filterMap (fun s =>
    match s with
    | .respond b => some (b.map Response.render)
    | _ => none)

/-- C8: two LOGIN requests with the same tag, one failing because the
username is absent from the user store (UserDoesNotExist,
src/src/auth/inmemory.rs lines 89 to 92) and one failing because
password verification fails (AuthenticationFailed,
src/src/auth/mod.rs lines 71 to 84), are answered with identical
traces and byte-for-byte identical rendered responses, because the
failure branch of the LOGIN worker ignores the error value
(src/src/handlers/login.rs lines 85 to 94): the reply does not reveal
whether the username exists. -/
theorem C8_login_failure_nondisclosure
    (tag a1 p1 a2 p2 : String) (ctx1 ctx2 : Context)
    (store : List (String × User)) (verify : BasicAuth → User → Bool) (u : User)
    (h1 : store.find? (fun kv => kv.1 == removeDoubleQuotes a1) = none)
    (h2 : (store.find? (fun kv => kv.1 == removeDoubleQuotes a2)).map Prod.snd = some u)
    (h3 : verify { username := removeDoubleQuotes a2, password := p2 } u = false) :
    resolvePrincipal store verify { username := removeDoubleQuotes a1, password := p1 } =
      .error (.userDoesNotExist (removeDoubleQuotes a1)) ∧
    resolvePrincipal store verify { username := removeDoubleQuotes a2, password := p2 } =
      .error .authenticationFailed ∧
    LoginHandler.start (resolvePrincipal store verify)
        { command := { tag := tag, verb := "LOGIN", args := [a1, p1] }, context := ctx1 } =
      LoginHandler.start (resolvePrincipal store verify)
        { command := { tag := tag, verb := "LOGIN", args := [a2, p2] }, context := ctx2 } ∧
    renderedBatches (LoginHandler.start (resolvePrincipal store verify)
        { command := { tag := tag, verb := "LOGIN", args := [a1, p1] }, context := ctx1 }) =
      renderedBatches (LoginHandler.start (resolvePrincipal store verify)
        { command := { tag := tag, verb := "LOGIN", args := [a2, p2] }, context := ctx2 }) := by
  have e1 : resolvePrincipal store verify { username := removeDoubleQuotes a1, password := p1 } =
      .error (.userDoesNotExist (removeDoubleQuotes a1)) := by
    unfold resolvePrincipal
    rw [h1]
    rfl
  have e2 : resolvePrincipal store verify { username := removeDoubleQuotes a2, password := p2 } =
      .error .authenticationFailed := by
    unfold resolvePrincipal
    rw [h2]
    dsimp only
    rw [h3]
    rfl
  have hv1 : ¬ LoginHandler.validateFails
      ({ tag := tag, verb := "LOGIN", args := [a1, p1] } : Command) := by
    unfold LoginHandler.validateFails
    simp [Command.numArgs]
  have hv2 : ¬ LoginHandler.validateFails
      ({ tag := tag, verb := "LOGIN", args := [a2, p2] } : Command) := by
    unfold LoginHandler.validateFails
    simp [Command.numArgs]
  have t1 : LoginHandler.start (resolvePrincipal store verify)
      { command := { tag := tag, verb := "LOGIN", args := [a1, p1] }, context := ctx1 } =
      [.respond [Response.new tag .BAD "LOGIN failed."]] := by
    unfold LoginHandler.start
    rw [if_neg hv1]
    have hp : LoginHandler.principalOf ({ tag := tag, verb := "LOGIN", args := [a1, p1] } : Command) =
        { username := removeDoubleQuotes a1, password := p1 } := rfl
    rw [hp, e1]
  have t2 : LoginHandler.start (resolvePrincipal store verify)
      { command := { tag := tag, verb := "LOGIN", args := [a2, p2] }, context := ctx2 } =
      [.respond [Response.new tag .BAD "LOGIN failed."]] := by
    unfold LoginHandler.start
    rw [if_neg hv2]
    have hp : LoginHandler.principalOf ({ tag := tag, verb := "LOGIN", args := [a2, p2] } : Command) =
        { username := removeDoubleQuotes a2, password := p2 } := rfl
    rw [hp, e2]
  refine ⟨e1, e2, ?_, ?_⟩
  · rw [t1, t2]
  · rw [t1, t2]

def demoStore : List (String × User) := [("bob", { name := "bob" })]

theorem C8_login_failure_nondisclosure_witness :
    resolvePrincipal demoStore (fun _ _ => false)
        { username := removeDoubleQuotes "alice", password := "x" } =
      .error (.userDoesNotExist (removeDoubleQuotes "alice")) ∧
    resolvePrincipal demoStore (fun _ _ => false)
        { username := removeDoubleQuotes "bob", password := "y" } =
      .error .authenticationFailed ∧
    LoginHandler.start (resolvePrincipal demoStore (fun _ _ => false))
        { command := { tag := "a1", verb := "LOGIN", args := ["alice", "x"] },
          context := { user := none, folder := none } } =
      LoginHandler.start (resolvePrincipal demoStore (fun _ _ => false))
        { command := { tag := "a1", verb := "LOGIN", args := ["bob", "y"] },
          context := { user := none, folder := none } } ∧
    renderedBatches (LoginHandler.start (resolvePrincipal demoStore (fun _ _ => false))
        { command := { tag := "a1", verb := "LOGIN", args := ["alice", "x"] },
          context := { user := none, folder := none } }) =
      renderedBatches (LoginHandler.start (resolvePrincipal demoStore (fun _ _ => false))
        { command := { tag := "a1", verb := "LOGIN", args := ["bob", "y"] },
          context := { user := none, folder := none } }) :=
  C8_login_failure_nondisclosure "a1" "alice" "x" "bob" "y"
    { user := none, folder := none } { user := none, folder := none }
    demoStore (fun _ _ => false) { name := "bob" }
    (by decide) (by decide) (by decide)
